import Mathlib

/-!
# SMOLTRACE — trace/metrics aggregation pipeline, shallow embedding

A shallow embedding of the aggregation core of the SMOLTRACE repository:

* `smoltrace/core.py`   — `extract_traces`
* `smoltrace/otel.py`   — `InMemorySpanExporter._to_dict` (duration computation),
                          `InMemoryMetricReaderCollector.collect_all`,
                          `_aggregate_from_traces`, `flatten_attributes`
* `smoltrace/utils.py`  — `aggregate_gpu_metrics`, `compute_leaderboard_row`

Modelling conventions:
* Python numbers are embedded exactly: `int` as `ℤ`, `float` as `ℚ`
  (true division is exact rational division; the decimal literals of the
  source such as `0.0004` are the corresponding rationals).
* Python dictionaries are association lists in insertion order; assignment
  to an existing key replaces the value in place, otherwise appends.
* Fallible Python calls (`int(s)`, `float(s)` on an unparsable string)
  raise; code paths that do not catch the exception are embedded in
  `Except String`, and an uncaught exception is an `Except.error`.
* Python truthiness is embedded per type (`0`, `0.0`, `""`, `[]`, `None`
  are falsy).
-/

namespace SmolTrace

/-! ## Association lists with Python-dict semantics -/

/-- Lookup in an association list (Python `d.get(k)` / `k in d`). -/
def alookup {α β : Type} [DecidableEq α] (k : α) : List (α × β) → Option β
  | [] => none
  | (k', v) :: rest => if k' = k then some v else alookup k rest

/-- Python `d[k] = v`: replace in place if the key exists, else append. -/
def dset {α β : Type} [DecidableEq α] (m : List (α × β)) (k : α) (v : β) :
    List (α × β) :=
  match m with
  | [] => [(k, v)]
  | (k', v') :: rest => if k' = k then (k, v) :: rest else (k', v') :: dset rest k v

/-! ## Python numeric primitives -/

/-- Digits of a decimal numeral to a natural number. -/
def digitsToNat (cs : List Char) : ℕ :=
  cs.foldl (fun a c => 10 * a + (c.toNat - 48)) 0

/-- A non-empty all-digit character list, or `none`. -/
def parseDigits (cs : List Char) : Option ℕ :=
  if cs ≠ [] ∧ cs.all Char.isDigit then some (digitsToNat cs) else none

/-- Strip leading and trailing whitespace (Python `str.strip()` as applied
by `int()` / `float()`). -/
def stripWs (cs : List Char) : List Char :=
  (((cs.dropWhile Char.isWhitespace).reverse).dropWhile Char.isWhitespace).reverse

/-- Python `int(s)` on a string: optional sign then decimal digits;
anything else raises `ValueError` (embedded as `none`).  Underscore
separators and non-ASCII digits of CPython are not modelled. -/
def pyInt (s : String) : Option ℤ :=
  match stripWs s.data with
  | '+' :: rest => (parseDigits rest).map Int.ofNat
  | '-' :: rest => (parseDigits rest).map (fun n => -(n : ℤ))
  | cs => (parseDigits cs).map Int.ofNat

/-- Split a character list at the first character satisfying `p`;
returns the part before and, when a split character was found, the part
after it. -/
def splitAtChar (p : Char → Bool) : List Char → List Char × Option (List Char)
  | [] => ([], none)
  | c :: cs =>
    if p c then ([], some cs)
    else
      let r := splitAtChar p cs
      (c :: r.1, r.2)

/-- Decimal mantissa `digits[.digits]` with at least one digit, as an
exact rational. -/
def parseMantissa (cs : List Char) : Option ℚ :=
  let r := splitAtChar (fun c => c = '.') cs
  match r.2 with
  | none => (parseDigits r.1).map (fun n => (n : ℚ))
  | some fp =>
    if r.1 = [] ∧ fp = [] then none
    else if r.1.all Char.isDigit ∧ fp.all Char.isDigit then
      some ((digitsToNat r.1 : ℚ) + (digitsToNat fp : ℚ) / (10 : ℚ) ^ fp.length)
    else none

/-- Python `float(s)` on a string: optional sign, decimal mantissa,
optional exponent.  `inf` / `nan` / underscore separators are not
modelled (no claim exercises them). -/
def pyFloat (s : String) : Option ℚ :=
  let go : List Char → Option ℚ := fun cs =>
    let r := splitAtChar (fun c => c = 'e' ∨ c = 'E') cs
    match r.2 with
    | none => parseMantissa r.1
    | some ecs =>
      let se : ℤ × List Char :=
        match ecs with
        | '+' :: t => (1, t)
        | '-' :: t => (-1, t)
        | t => (1, t)
      match parseMantissa r.1, parseDigits se.2 with
      | some m, some e => some (m * (10 : ℚ) ^ (se.1 * (e : ℤ)))
      | _, _ => none
  match stripWs s.data with
  | '+' :: rest => go rest
  | '-' :: rest => (go rest).map Neg.neg
  | cs => go cs

/-- Floor of a rational as an integer (`num.fdiv den`, exact). -/
def ratFloor (q : ℚ) : ℤ := Int.fdiv q.num q.den

/-- Python `round(x, n)`: round `x` to `n` decimal places, ties to even
(banker's rounding), on the exact rational value. -/
def pyRound (x : ℚ) (n : ℕ) : ℚ :=
  let m : ℚ := x * (10 : ℚ) ^ n
  let f : ℤ := ratFloor m
  let r : ℚ := m - (f : ℚ)
  let k : ℤ :=
    if r < 1 / 2 then f
    else if 1 / 2 < r then f + 1
    else if f % 2 = 0 then f else f + 1
  (k : ℚ) / (10 : ℚ) ^ n

/-- Python `int(x)` on a float: truncation toward zero. -/
def pyTrunc (q : ℚ) : ℤ := Int.tdiv q.num q.den

/-- Truthiness of an optional integer (`None` and `0` are falsy). -/
def truthyInt : Option ℤ → Bool
  | none => false
  | some n => n != 0

/-! ## Span and Trace records (`core.py` / `otel.py`)

Only the fields consumed by the aggregation functions are modelled.  The
span dictionaries produced by `InMemorySpanExporter._to_dict` carry
string-valued attributes (`safe_attrs_to_dict` stringifies every value),
so `attributes` maps string keys to string values.  `duration_ms` is
`some` exactly when the span dictionary has the key. -/

structure Span where
  trace_id : Option String
  attributes : List (String × String)
  duration_ms : Option ℚ
  deriving DecidableEq, Repr

structure Trace where
  trace_id : Option String
  run_id : String
  spans : List Span
  total_tokens : ℤ
  total_duration_ms : ℚ
  total_cost_usd : ℚ
  deriving DecidableEq, Repr

/-! ## `extract_traces` (`smoltrace/core.py`, lines 527–567)

The Python body runs `int(attrs["llm.token_count.total"])` and
`float(attrs["gen_ai.usage.cost.total"])` with no exception handler, so
an unparsable value propagates a `ValueError`; this is embedded as
`Except.error`. -/

def newTrace (tid : Option String) (run_id : String) : Trace :=
  { trace_id := tid, run_id := run_id, spans := [], total_tokens := 0,
    total_duration_ms := 0, total_cost_usd := 0 }

/-- The per-span mutation of the trace entry in `extract_traces`:
append the span, then add token count, duration and cost. -/
def addSpanToTrace (t : Trace) (s : Span) : Except String Trace :=
  let t0 := { t with spans := t.spans ++ [s] }
  match alookup "llm.token_count.total" s.attributes with
  | some v =>
    match pyInt v with
    | none => .error "ValueError: int"
    | some n =>
      let t1 := { t0 with total_tokens := t0.total_tokens + n }
      let t2 :=
        match s.duration_ms with
        | none => t1
        | some d => { t1 with total_duration_ms := t1.total_duration_ms + d }
      match alookup "gen_ai.usage.cost.total" s.attributes with
      | some cv =>
        match pyFloat cv with
        | none => .error "ValueError: float"
        | some q => .ok { t2 with total_cost_usd := t2.total_cost_usd + q }
      | none => .ok t2
  | none =>
    let t2 :=
      match s.duration_ms with
      | none => t0
      | some d => { t0 with total_duration_ms := t0.total_duration_ms + d }
    match alookup "gen_ai.usage.cost.total" s.attributes with
    | some cv =>
      match pyFloat cv with
      | none => .error "ValueError: float"
      | some q => .ok { t2 with total_cost_usd := t2.total_cost_usd + q }
    | none => .ok t2

/-- The `traces_by_id` update for one span: create the entry under
`span.get("trace_id")` (a dict key that may be `None`) if absent, then
apply `addSpanToTrace`.  Insertion order of first-seen keys is kept. -/
def upsertTrace (l : List (Option String × Trace)) (tid : Option String)
    (run_id : String) (s : Span) : Except String (List (Option String × Trace)) :=
  match l with
  | [] =>
    match addSpanToTrace (newTrace tid run_id) s with
    | .error e => .error e
    | .ok t => .ok [(tid, t)]
  | (k, t) :: rest =>
    if k = tid then
      match addSpanToTrace t s with
      | .error e => .error e
      | .ok t' => .ok ((k, t') :: rest)
    else
      match upsertTrace rest tid run_id s with
      | .error e => .error e
      | .ok rest' => .ok ((k, t) :: rest')

/-- The `for span in spans` loop of `extract_traces`. -/
def extractLoop (acc : List (Option String × Trace)) (run_id : String) :
    List Span → Except String (List (Option String × Trace))
  | [] => .ok acc
  | s :: rest =>
    match upsertTrace acc s.trace_id run_id s with
    | .error e => .error e
    | .ok acc' => extractLoop acc' run_id rest

/-- Embeds `extract_traces(span_exporter, run_id)` after
`spans = span_exporter.get_finished_spans()`: group spans by `trace_id`
and roll up tokens, duration and cost; `list(traces_by_id.values())`. -/
def extract_traces (spans : List Span) (run_id : String) :
    Except String (List Trace) :=
  match extractLoop [] run_id spans with
  | .error e => .error e
  | .ok m => .ok (m.map Prod.snd)

/-! ## `InMemorySpanExporter._to_dict` duration (`smoltrace/otel.py`, line 64)

`(span.end_time - span.start_time) / 1e6 if span.end_time and
span.start_time else 0` — Python truthiness, so a `None` or `0`
timestamp selects the `else 0` branch, and nothing clamps a negative
difference. -/

def span_duration_ms (start_time end_time : Option ℤ) : ℚ :=
  if truthyInt end_time && truthyInt start_time then
    ((end_time.getD 0 - start_time.getD 0 : ℤ) : ℚ) / 1000000
  else 0

/-! ## Metrics Aggregator
(`smoltrace/otel.py`, `InMemoryMetricReaderCollector`, lines 126–242) -/

/-- One per-test result record, as consumed by `_aggregate_from_traces`
(`r["test_id"]`, `r["success"]`) and `compute_leaderboard_row`
(`r["success"]`, `r["steps"]`). -/
structure EvalResult where
  test_id : String
  success : Bool
  steps : ℚ
  deriving DecidableEq, Repr

/-- The dict comprehension
`{r["test_id"]: r["success"] for results_list in all_results.values()
for r in results_list}` — later entries overwrite earlier ones. -/
def successMap (all_results : List (String × List EvalResult)) :
    List (String × Bool) :=
  ((all_results.map Prod.snd).flatten).foldl
    (fun m r => dset m r.test_id r.success) []

/-- Accumulator of the aggregation loop in `_aggregate_from_traces`. -/
structure MAcc where
  total_success : ℕ
  total_tool_calls : ℤ
  total_steps : ℤ
  test_count : ℕ
  total_tokens : ℤ
  total_cost : ℚ
  deriving DecidableEq, Repr

/-- The inner `for span in trace.get("spans", [])` body: a span whose
attributes carry a truthy `test.id` counts as a test-evaluation span;
`tests.tool_calls` / `tests.steps` are parsed with
`try: ... except (ValueError, TypeError): pass`. -/
def stepSpanM (smap : List (String × Bool)) (a : MAcc) (s : Span) : MAcc :=
  match alookup "test.id" s.attributes with
  | none => a
  | some tid =>
    if tid = "" then a
    else
      let a1 := { a with
        test_count := a.test_count + 1,
        total_success := a.total_success +
          (if (alookup tid smap).getD false then 1 else 0) }
      let tc := (alookup "tests.tool_calls" s.attributes).getD "0"
      let st := (alookup "tests.steps" s.attributes).getD "0"
      let a2 :=
        match pyInt tc with
        | some n => { a1 with total_tool_calls := a1.total_tool_calls + n }
        | none => a1
      match pyInt st with
      | some n => { a2 with total_steps := a2.total_steps + n }
      | none => a2

/-- The outer `for trace in trace_data` body: the trace-level rollups are
added when truthy (`if trace.get("total_tokens"):` /
`if trace.get("total_cost_usd"):`), then the spans are walked. -/
def stepTraceM (smap : List (String × Bool)) (a : MAcc) (t : Trace) : MAcc :=
  let a1 :=
    if t.total_tokens ≠ 0 then
      { a with total_tokens := a.total_tokens + t.total_tokens }
    else a
  let a2 :=
    if t.total_cost_usd ≠ 0 then
      { a1 with total_cost := a1.total_cost + t.total_cost_usd }
    else a1
  t.spans.foldl (stepSpanM smap) a2

/-- The whole accumulation phase of `_aggregate_from_traces`. -/
def aggAcc (trace_data : List Trace)
    (all_results : List (String × List EvalResult)) : MAcc :=
  trace_data.foldl (stepTraceM (successMap all_results))
    { total_success := 0, total_tool_calls := 0, total_steps := 0,
      test_count := 0, total_tokens := 0, total_cost := 0 }

/-- The single data point of an emitted metric summary.  The Python value
is a nested dict; the constructor mirrors which fields it carries:
`counter` has `{"value": v}` plus `total_tests` / `success_rate`
attributes, `histogram` has `{"sum", "count", "avg"}`, `scalarSum` has
`{"value": v}`. -/
inductive MetricPoint where
  | counter (value : ℕ) (total_tests : ℕ) (success_rate : ℚ)
  | histogram (sum : ℤ) (count : ℕ) (avg : ℚ)
  | scalarSum (value : ℚ)
  deriving DecidableEq, Repr

structure MetricSummary where
  name : String
  mtype : String
  unit : Option String
  points : List MetricPoint
  deriving DecidableEq, Repr

/-- The six-entry `metrics` list built at the end of
`_aggregate_from_traces`, including the CO2 derivation
`co2_total = total_tokens / 1000 * 0.0004 if total_tokens > 0 else 0`. -/
def buildMetrics (a : MAcc) : List MetricSummary :=
  let co2 : ℚ :=
    if 0 < a.total_tokens then (a.total_tokens : ℚ) / 1000 * (4 / 10000) else 0
  [ { name := "tests.successful", mtype := "counter", unit := none,
      points := [.counter a.total_success a.test_count
        (if a.test_count = 0 then 0
         else pyRound ((a.total_success : ℚ) / (a.test_count : ℚ) * 100) 2)] },
    { name := "tests.tool_calls", mtype := "histogram", unit := none,
      points := [.histogram a.total_tool_calls a.test_count
        (if a.test_count = 0 then 0
         else pyRound ((a.total_tool_calls : ℚ) / (a.test_count : ℚ)) 2)] },
    { name := "tests.steps", mtype := "histogram", unit := none,
      points := [.histogram a.total_steps a.test_count
        (if a.test_count = 0 then 0
         else pyRound ((a.total_steps : ℚ) / (a.test_count : ℚ)) 2)] },
    { name := "llm.token_count.total", mtype := "sum", unit := some "tokens",
      points := [.scalarSum (a.total_tokens : ℚ)] },
    { name := "gen_ai.usage.cost.total", mtype := "sum", unit := some "USD",
      points := [.scalarSum (pyRound a.total_cost 6)] },
    { name := "gen_ai.co2.emissions", mtype := "sum", unit := some "gCO2e",
      points := [.scalarSum (pyRound co2 4)] } ]

/-- Embeds `InMemoryMetricReaderCollector._aggregate_from_traces`. -/
def aggregate_from_traces (trace_data : List Trace)
    (all_results : List (String × List EvalResult)) : List MetricSummary :=
  buildMetrics (aggAcc trace_data all_results)

/-- Embeds `InMemoryMetricReaderCollector.collect_all`: `if not trace_data:
return []`, otherwise aggregate.  The `except Exception` wrapper of the
source can only fire on malformed result records, which the typed
embedding excludes, so the embedded aggregation is total. -/
def collect_all (trace_data : List Trace)
    (all_results : List (String × List EvalResult)) : List MetricSummary :=
  if trace_data = [] then [] else aggregate_from_traces trace_data all_results

/-- The `success_rate` attribute of a `counter` summary with one data point. -/
def pointsRate (m : MetricSummary) : Option ℚ :=
  match m.points with
  | [.counter _ _ r] => some r
  | _ => none

/-- The `avg` field of a `histogram` summary with one data point. -/
def pointsAvg (m : MetricSummary) : Option ℚ :=
  match m.points with
  | [.histogram _ _ a] => some a
  | _ => none

/-! ## Attribute Normalizer
(`smoltrace/otel.py`, `flatten_attributes`, lines 244–272)

The payload is an arbitrary Python value; `PyVal` covers the shapes the
function distinguishes: flat dict, list of `{key, value}` entries (with
dict-shaped or protobuf-object-shaped values), and anything else. -/

inductive PyVal where
  | str (s : String)
  | int (n : ℤ)
  | float (q : ℚ)
  | bool (b : Bool)
  | dict (entries : List (String × PyVal))
  | obj (fields : List (String × PyVal))
  | pylist (xs : List PyVal)

/-- Python truthiness of a value. -/
def pyTruthy : PyVal → Bool
  | .str s => s != ""
  | .int n => n != 0
  | .float q => q != 0
  | .bool b => b
  | .dict es => !es.isEmpty
  | .obj _ => true
  | .pylist xs => !xs.isEmpty

/-- Python `str(value)`.  Exact for the scalar cases; the rendering of
containers abbreviates CPython's `repr`-based form (no claim equates the
resulting text of a container). -/
def pyStr : PyVal → String
  | .str s => s
  | .int n => toString n
  | .float q => toString q
  | .bool b => if b then "True" else "False"
  | .dict _ => "<dict>"
  | .obj _ => "<object>"
  | .pylist _ => "<list>"

/-- Python `int(value)` on an arbitrary value: exact for int, bool and
float arguments, `ValueError` on an unparsable string, `TypeError` on
containers. -/
def pyIntOf : PyVal → Except String ℤ
  | .int n => .ok n
  | .bool b => .ok (if b then 1 else 0)
  | .float q => .ok (pyTrunc q)
  | .str s =>
    match pyInt s with
    | some n => .ok n
    | none => .error "ValueError: int"
  | _ => .error "TypeError: int"

/-- Python `float(value)` on an arbitrary value. -/
def pyFloatOf : PyVal → Except String ℚ
  | .int n => .ok (n : ℚ)
  | .bool b => .ok (if b then 1 else 0)
  | .float q => .ok q
  | .str s =>
    match pyFloat s with
    | some q => .ok q
    | none => .error "ValueError: float"
  | _ => .error "TypeError: float"

/-- Dict field access on a `PyVal` dict body (`"k" in d` / `d["k"]`). -/
def dget (es : List (String × PyVal)) (k : String) : Option PyVal :=
  alookup k es

/-- The body of the `for kv in attrs` loop of Case 2: a non-dict entry or
one lacking `key`/`value` is skipped; a dict-shaped value is probed for
`stringValue`/`intValue`/`doubleValue`/`boolValue` in that order (and
contributes nothing if none is present); any other value is probed for
the protobuf accessors `string_value`/`int_value`/`double_value`/
`bool_value`, falling back to `str(value)`.  Python uses `kv["key"]`
itself as the dict key; telemetry keys are strings, and the embedding
requires the key to be a string (an entry with a non-string key is not
modelled and is skipped). -/
def flattenEntry (acc : List (String × PyVal)) (kv : PyVal) :
    Except String (List (String × PyVal)) :=
  match kv with
  | .dict es =>
    match dget es "key", dget es "value" with
    | some (.str key), some val =>
      match val with
      | .dict vd =>
        match dget vd "stringValue" with
        | some sv => .ok (dset acc key sv)
        | none =>
          match dget vd "intValue" with
          | some iv =>
            match pyIntOf iv with
            | .error e => .error e
            | .ok n => .ok (dset acc key (.int n))
          | none =>
            match dget vd "doubleValue" with
            | some dv =>
              match pyFloatOf dv with
              | .error e => .error e
              | .ok q => .ok (dset acc key (.float q))
            | none =>
              match dget vd "boolValue" with
              | some bv => .ok (dset acc key (.bool (pyTruthy bv)))
              | none => .ok acc
      | .obj fs =>
        match dget fs "string_value" with
        | some sv => .ok (dset acc key sv)
        | none =>
          match dget fs "int_value" with
          | some iv =>
            match pyIntOf iv with
            | .error e => .error e
            | .ok n => .ok (dset acc key (.int n))
          | none =>
            match dget fs "double_value" with
            | some dv =>
              match pyFloatOf dv with
              | .error e => .error e
              | .ok q => .ok (dset acc key (.float q))
            | none =>
              match dget fs "bool_value" with
              | some bv => .ok (dset acc key (.bool (pyTruthy bv)))
              | none => .ok (dset acc key (.str (pyStr val)))
      | _ => .ok (dset acc key (.str (pyStr val)))
    | _, _ => .ok acc
  | _ => .ok acc

/-- The Case-2 loop over the entry list. -/
def flattenList (acc : List (String × PyVal)) :
    List PyVal → Except String (List (String × PyVal))
  | [] => .ok acc
  | kv :: rest =>
    match flattenEntry acc kv with
    | .error e => .error e
    | .ok acc' => flattenList acc' rest

/-- Embeds `InMemoryMetricReaderCollector.flatten_attributes`: an
already-flat dict is returned as-is; a list is decoded entry by entry;
anything else yields the empty dict `flat_attrs`. -/
def flatten_attributes : PyVal → Except String (List (String × PyVal))
  | .dict es => .ok es
  | .pylist xs => flattenList [] xs
  | _ => .ok []

/-! ## GPU Time-Series Collector
(`smoltrace/utils.py`, `aggregate_gpu_metrics`, lines 60–123) -/

/-- One OpenTelemetry data point; `asInt` is tested for truthiness
(`if dp.get("asInt"):`), `asDouble` for presence
(`elif dp.get("asDouble") is not None:`). -/
structure DataPoint where
  asInt : Option ℤ
  asDouble : Option ℚ
  deriving DecidableEq, Repr

/-- One metric inside a scope: `metric.get("name")` may be absent, and
the data points come from `metric["gauge"].get("dataPoints", [])` or,
failing a `gauge` key, `metric["sum"].get("dataPoints", [])` (the inner
default-to-`[]` is folded into the `Option`'s payload). -/
structure GpuMetric where
  name : Option String
  gauge : Option (List DataPoint)
  sum : Option (List DataPoint)
  deriving DecidableEq, Repr

structure ScopeMetric where
  metrics : List GpuMetric
  deriving DecidableEq, Repr

structure ResourceMetric where
  scopeMetrics : List ScopeMetric
  deriving DecidableEq, Repr

/-- The numeric value extracted from a data point, when any. -/
def dpValue (dp : DataPoint) : Option ℚ :=
  if truthyInt dp.asInt then some ((dp.asInt.getD 0 : ℤ) : ℚ)
  else
    match dp.asDouble with
    | some q => some q
    | none => none

/-- The `data_points` selected for a metric (gauge first, then sum, else none). -/
def metricPoints (m : GpuMetric) : List DataPoint :=
  match m.gauge with
  | some dps => dps
  | none =>
    match m.sum with
    | some dps => dps
    | none => []

/-- The bucket `metrics_by_name[name]` after the collection loops: all
extracted values of the metrics carrying exactly this name, in traversal
order. -/
def gpuValues (resource_metrics : List ResourceMetric) (name : String) :
    List ℚ :=
  (resource_metrics.map (fun rm =>
    (rm.scopeMetrics.map (fun sm =>
      (sm.metrics.map (fun m =>
        if m.name = some name then (metricPoints m).filterMap dpValue
        else [])).flatten)).flatten)).flatten

/-- Embeds `safe_avg`: arithmetic mean, `None` on an empty bucket. -/
def safe_avg (values : List ℚ) : Option ℚ :=
  if values = [] then none else some (values.sum / (values.length : ℚ))

/-- Embeds `safe_max`: maximum observed value, `None` on an empty bucket. -/
def safe_max (values : List ℚ) : Option ℚ :=
  match values with
  | [] => none
  | x :: xs => some (xs.foldl max x)

/-- The seven-field result of `aggregate_gpu_metrics`. -/
structure GpuAgg where
  utilization_avg : Option ℚ
  utilization_max : Option ℚ
  memory_avg : Option ℚ
  memory_max : Option ℚ
  temperature_avg : Option ℚ
  temperature_max : Option ℚ
  power_avg : Option ℚ
  deriving DecidableEq, Repr

/-- The all-`None` record returned for an empty batch list. -/
def gpuAggNone : GpuAgg :=
  { utilization_avg := none, utilization_max := none, memory_avg := none,
    memory_max := none, temperature_avg := none, temperature_max := none,
    power_avg := none }

/-- Embeds `aggregate_gpu_metrics(resource_metrics)`. -/
def aggregate_gpu_metrics (resource_metrics : List ResourceMetric) : GpuAgg :=
  if resource_metrics = [] then gpuAggNone
  else
    { utilization_avg := safe_avg (gpuValues resource_metrics "gen_ai.gpu.utilization"),
      utilization_max := safe_max (gpuValues resource_metrics "gen_ai.gpu.utilization"),
      memory_avg := safe_avg (gpuValues resource_metrics "gen_ai.gpu.memory.used"),
      memory_max := safe_max (gpuValues resource_metrics "gen_ai.gpu.memory.used"),
      temperature_avg := safe_avg (gpuValues resource_metrics "gen_ai.gpu.temperature"),
      temperature_max := safe_max (gpuValues resource_metrics "gen_ai.gpu.temperature"),
      power_avg := safe_avg (gpuValues resource_metrics "gen_ai.gpu.power") }

/-! ## Leaderboard Row Computer
(`smoltrace/utils.py`, `compute_leaderboard_row`, lines 126–276) -/

/-- A trace record as consumed by the leaderboard: the three rollup
fields are read with `t.get(key, default)` and defensively coerced, so a
field may hold an int, a float or a string. -/
inductive NumOrStr where
  | int (n : ℤ)
  | float (q : ℚ)
  | str (s : String)
  deriving DecidableEq, Repr

structure TraceIn where
  total_tokens : Option NumOrStr
  total_duration_ms : Option NumOrStr
  total_cost_usd : Option NumOrStr
  deriving DecidableEq, Repr

/-- Embeds `int(v) if isinstance(v, str) else v`, with
`except (ValueError, TypeError): v = 0`. -/
def coerceIntish (v : NumOrStr) : ℚ :=
  match v with
  | .int n => (n : ℚ)
  | .float q => q
  | .str s => (((pyInt s).getD 0 : ℤ) : ℚ)

/-- Embeds `float(v) if isinstance(v, str) else v`, with
`except (ValueError, TypeError): v = 0`. -/
def coerceFloatish (v : NumOrStr) : ℚ :=
  match v with
  | .int n => (n : ℚ)
  | .float q => q
  | .str s => (pyFloat s).getD 0

/-- The `metric_data` dict: `resourceMetrics` (GPU time-series) and
`aggregates` (trace-based summaries) may each be absent. -/
structure MetricData where
  resourceMetrics : Option (List ResourceMetric)
  aggregates : Option (List MetricSummary)
  deriving DecidableEq, Repr

/-- Embeds `dp["value"].get("value", 0)` on an emitted data point: counters and
sums carry a `value` field, histogram payloads do not (default 0). -/
def pointValueField : MetricPoint → ℚ
  | .counter v _ _ => (v : ℚ)
  | .histogram _ _ _ => 0
  | .scalarSum v => v

/-- The CO2 extraction loop: sum the data-point values of every
aggregate named `gen_ai.co2.emissions`. -/
def extractCo2 (aggregates : List MetricSummary) : ℚ :=
  (aggregates.map (fun m =>
    if m.name = "gen_ai.co2.emissions" then
      (m.points.map pointValueField).sum
    else 0)).sum

/-- The result subset selected by the `agent_type` filter. -/
def selectResults (all_results : List (String × List EvalResult))
    (agent_type : String) : List EvalResult :=
  if agent_type ≠ "both" then (alookup agent_type all_results).getD []
  else (alookup "tool" all_results).getD [] ++ (alookup "code" all_results).getD []

/-- One leaderboard row.  `evaluation_date`, `submitted_by` and `notes`
depend on the wall clock and on network state and are not modelled; all
fields computed from the inputs are. -/
structure LeaderboardRow where
  run_id : Option String
  model : String
  agent_type : String
  provider : String
  results_dataset : String
  traces_dataset : String
  metrics_dataset : String
  dataset_used : String
  num_tests : ℕ
  successful_tests : ℕ
  failed_tests : ℕ
  success_rate : ℚ
  avg_steps : ℚ
  avg_duration_ms : ℚ
  total_duration_ms : ℚ
  total_tokens : ℚ
  avg_tokens_per_test : ℤ
  total_cost_usd : ℚ
  avg_cost_per_test_usd : ℚ
  co2_emissions_g : ℚ
  gpu_utilization_avg : Option ℚ
  gpu_utilization_max : Option ℚ
  gpu_memory_avg_mib : Option ℚ
  gpu_memory_max_mib : Option ℚ
  gpu_temperature_avg : Option ℚ
  gpu_temperature_max : Option ℚ
  gpu_power_avg_w : Option ℚ
  deriving DecidableEq, Repr

/-- Embeds `compute_leaderboard_row`. -/
def compute_leaderboard_row (model_name : String)
    (all_results : List (String × List EvalResult))
    (trace_data : List TraceIn) (metric_data : MetricData)
    (dataset_used results_dataset traces_dataset metrics_dataset : String)
    (agent_type : String) (run_id : Option String) (provider : String) :
    LeaderboardRow :=
  let results := selectResults all_results agent_type
  let num_tests := results.length
  let success_rate : ℚ :=
    if 0 < num_tests then
      ((results.countP (fun r => r.success) : ℚ) / (num_tests : ℚ)) * 100
    else 0
  let avg_steps : ℚ :=
    if 0 < num_tests then (results.map (fun r => r.steps)).sum / (num_tests : ℚ)
    else 0
  let total_tokens : ℚ :=
    (trace_data.map (fun t => coerceIntish ((t.total_tokens).getD (.int 0)))).sum
  let total_duration_ms : ℚ :=
    (trace_data.map (fun t => coerceFloatish ((t.total_duration_ms).getD (.int 0)))).sum
  let total_cost_usd : ℚ :=
    (trace_data.map (fun t => coerceFloatish ((t.total_cost_usd).getD (.float 0)))).sum
  let avg_duration_ms : ℚ :=
    if 0 < num_tests then total_duration_ms / (num_tests : ℚ) else 0
  let total_co2 : ℚ :=
    match metric_data.aggregates with
    | some ms => extractCo2 ms
    | none => 0
  let gpu_metrics : Option GpuAgg :=
    match metric_data.resourceMetrics with
    | some rms => some (aggregate_gpu_metrics rms)
    | none => none
  let successful_tests := results.countP (fun r => r.success)
  let avg_tokens : ℚ := if 0 < num_tests then total_tokens / (num_tests : ℚ) else 0
  let avg_cost : ℚ := if 0 < num_tests then total_cost_usd / (num_tests : ℚ) else 0
  { run_id := run_id,
    model := model_name,
    agent_type := agent_type,
    provider := provider,
    results_dataset := results_dataset,
    traces_dataset := traces_dataset,
    metrics_dataset := metrics_dataset,
    dataset_used := dataset_used,
    num_tests := num_tests,
    successful_tests := successful_tests,
    failed_tests := num_tests - successful_tests,
    success_rate := pyRound success_rate 2,
    avg_steps := pyRound avg_steps 2,
    avg_duration_ms := pyRound avg_duration_ms 2,
    total_duration_ms := pyRound total_duration_ms 2,
    total_tokens := total_tokens,
    avg_tokens_per_test := pyTrunc avg_tokens,
    total_cost_usd := pyRound total_cost_usd 6,
    avg_cost_per_test_usd := pyRound avg_cost 6,
    co2_emissions_g := pyRound total_co2 4,
    gpu_utilization_avg :=
      (gpu_metrics.bind (fun g => g.utilization_avg)).map (fun v => pyRound v 2),
    gpu_utilization_max :=
      (gpu_metrics.bind (fun g => g.utilization_max)).map (fun v => pyRound v 2),
    gpu_memory_avg_mib :=
      (gpu_metrics.bind (fun g => g.memory_avg)).map (fun v => pyRound v 2),
    gpu_memory_max_mib :=
      (gpu_metrics.bind (fun g => g.memory_max)).map (fun v => pyRound v 2),
    gpu_temperature_avg :=
      (gpu_metrics.bind (fun g => g.temperature_avg)).map (fun v => pyRound v 2),
    gpu_temperature_max :=
      (gpu_metrics.bind (fun g => g.temperature_max)).map (fun v => pyRound v 2),
    gpu_power_avg_w :=
      (gpu_metrics.bind (fun g => g.power_avg)).map (fun v => pyRound v 2) }

/-! ## Helper lemmas -/

theorem pyRound_zero (n : ℕ) : pyRound 0 n = 0 := by
  simp [pyRound, ratFloor]

theorem pyTrunc_zero : pyTrunc 0 = 0 := rfl

/-- Success of an `Except` as a Boolean. -/
def exOk {ε α : Type} : Except ε α → Bool
  | .ok _ => true
  | .error _ => false

/-! ## Claims -/

/-- Claim C2. For the Metrics Aggregator's public entry point
(`collect_all`), if the input trace list is empty then the result is the
empty list of summaries — not a list of six zero-valued summaries. -/
theorem collect_all_empty_gives_empty
    (all_results : List (String × List EvalResult)) :
    collect_all [] all_results = [] := by
  simp [collect_all]

/-- Claim C6, counterexample. `duration_ms` is not clamped: with
`start_time = 2000000` and `end_time = 1000000` the recorded duration is
`-1` milliseconds, which is negative. -/
theorem span_duration_negative_cex :
    span_duration_ms (some 2000000) (some 1000000) = -1 ∧
    span_duration_ms (some 2000000) (some 1000000) < 0 := by
  constructor <;> norm_num [span_duration_ms, truthyInt]

/-- Claim C6, amended. `duration_ms` equals `(end - start) / 1e6` when
both timestamps are truthy (present and nonzero), is `0` when either
timestamp is missing, zero, or falsy, and is negative — not clamped —
whenever both are truthy and `end < start`. -/
theorem span_duration_ms_spec (start_time end_time : Option ℤ) :
    ((truthyInt end_time && truthyInt start_time) = true →
      span_duration_ms start_time end_time =
        ((end_time.getD 0 - start_time.getD 0 : ℤ) : ℚ) / 1000000) ∧
    ((truthyInt end_time && truthyInt start_time) = false →
      span_duration_ms start_time end_time = 0) ∧
    ((truthyInt end_time && truthyInt start_time) = true →
      end_time.getD 0 < start_time.getD 0 →
      span_duration_ms start_time end_time < 0) := by
  refine ⟨fun h => by simp [span_duration_ms, h],
          fun h => by simp [span_duration_ms, h],
          fun h hlt => ?_⟩
  simp only [span_duration_ms, h, if_true]
  apply div_neg_of_neg_of_pos
  · have hz : (end_time.getD 0 - start_time.getD 0 : ℤ) < 0 := sub_neg.mpr hlt
    exact_mod_cast hz
  · norm_num

/-- Claim C6, witness. The amended characterization evaluated at concrete
timestamps: for `start = 2000000`, `end = 1000000` both truthy branches
of the theorem apply and give a negative duration. -/
theorem span_duration_ms_spec_witness :
    span_duration_ms (some 2000000) (some 1000000) =
      ((1000000 - 2000000 : ℤ) : ℚ) / 1000000 ∧
    span_duration_ms (some 2000000) (some 1000000) < 0 := by
  have h := span_duration_ms_spec (some 2000000) (some 1000000)
  exact ⟨h.1 (by decide), h.2.2 (by decide) (by decide)⟩

/-- Claim C9. Attribute normalization (`flatten_attributes`) is
idempotent: re-normalizing any successful result (a flat dict) returns
it unchanged, so `normalize ∘ normalize = normalize` on every payload;
in particular an already-flat mapping is returned as-is. -/
theorem flatten_attributes_idempotent (x : PyVal)
    (es : List (String × PyVal)) :
    ((flatten_attributes x).bind fun d => flatten_attributes (.dict d)) =
      flatten_attributes x ∧
    flatten_attributes (.dict es) = .ok es := by
  refine ⟨?_, rfl⟩
  cases h : flatten_attributes x <;> rfl

/-- Claim C8. The `gen_ai.co2.emissions` summary (sixth entry emitted by
`_aggregate_from_traces`) carries the value
`total_tokens / 1000 * 0.0004` rounded to 4 decimal places, for any
nonnegative aggregated token total.  (Python floats are embedded as
exact rationals; the computation stays within exactly representable
decimals.) -/
theorem co2_metric_value (trace_data : List Trace)
    (all_results : List (String × List EvalResult))
    (h : 0 ≤ (aggAcc trace_data all_results).total_tokens) :
    (aggregate_from_traces trace_data all_results).get? 5 =
      some { name := "gen_ai.co2.emissions", mtype := "sum",
             unit := some "gCO2e",
             points := [.scalarSum (pyRound
               (((aggAcc trace_data all_results).total_tokens : ℚ) / 1000 *
                 (4 / 10000)) 4)] } := by
  unfold aggregate_from_traces buildMetrics
  rcases lt_or_eq_of_le h with hpos | hzero
  · simp [hpos]
  · simp [← hzero, pyRound_zero]

/-- Concrete trace used by the C8 witness. -/
def c8Trace : Trace :=
  { trace_id := some "0xabc", run_id := "r", spans := [],
    total_tokens := 2500, total_duration_ms := 0, total_cost_usd := 0 }

/-- Claim C8, witness. For a trace with `total_tokens = 2500` the emitted
CO2 value is exactly `0.001`. -/
theorem co2_metric_value_witness :
    0 ≤ (aggAcc [c8Trace] []).total_tokens ∧
    (aggregate_from_traces [c8Trace] []).get? 5 =
      some { name := "gen_ai.co2.emissions", mtype := "sum",
             unit := some "gCO2e",
             points := [.scalarSum (1 / 1000)] } := by
  have h0 : 0 ≤ (aggAcc [c8Trace] []).total_tokens := by decide
  refine ⟨h0, ?_⟩
  rw [co2_metric_value _ _ h0]
  have ht : (aggAcc [c8Trace] []).total_tokens = 2500 := rfl
  rw [ht]
  norm_num [pyRound, ratFloor]

/-- Resource-metric batch holding a single gauge utilization metric
(`name := "gen_ai.gpu.utilization"`, `gauge := dps`, no `sum`). -/
def mkUtilBatch (dps : List DataPoint) : ResourceMetric :=
  ⟨[⟨[⟨some "gen_ai.gpu.utilization", some dps, none⟩]⟩]⟩

/-- Claim C10. In `aggregate_gpu_metrics`, a data point whose `asInt`
field is `0` or absent (falsy) and that carries no `asDouble` field
contributes no value: its extracted value is `None`, the bucket stays
empty, and a batch of such points aggregates to all-`None` — zero-valued
integer samples are excluded from the averages and maxima. -/
theorem falsy_asInt_excluded (dp : DataPoint)
    (h1 : dp.asInt.getD 0 = 0) (h2 : dp.asDouble = none) :
    dpValue dp = none ∧
    gpuValues [mkUtilBatch [dp]] "gen_ai.gpu.utilization" = [] ∧
    aggregate_gpu_metrics [mkUtilBatch [dp]] = gpuAggNone := by
  have hdp : dpValue dp = none := by
    cases hi : dp.asInt with
    | none => simp [dpValue, truthyInt, hi, h2]
    | some n =>
      have hn : n = 0 := by simpa [hi] using h1
      simp [dpValue, truthyInt, hi, hn, h2]
  refine ⟨hdp, ?_, ?_⟩
  · simp [gpuValues, mkUtilBatch, metricPoints, hdp]
  · simp [aggregate_gpu_metrics, gpuValues, mkUtilBatch, metricPoints, hdp,
      safe_avg, safe_max, gpuAggNone]

/-- Claim C10, witness. A concrete data point with `asInt = 0` and no
`asDouble` is excluded from the aggregation. -/
theorem falsy_asInt_excluded_witness :
    dpValue { asInt := some 0, asDouble := none } = none ∧
    gpuValues [mkUtilBatch [{ asInt := some 0, asDouble := none }]]
      "gen_ai.gpu.utilization" = [] ∧
    aggregate_gpu_metrics [mkUtilBatch [{ asInt := some 0, asDouble := none }]] =
      gpuAggNone :=
  falsy_asInt_excluded { asInt := some 0, asDouble := none } rfl rfl

/-- Claim C3. When the number of test-evaluation spans is zero, the
`success_rate` attribute and the tool-call / step histogram averages
emitted by `_aggregate_from_traces` are exactly `0` (the aggregation is
a total function, so no exception and no NaN is possible); likewise,
when the selected result set of `compute_leaderboard_row` is empty, its
`success_rate` and every per-test average are `0`. -/
theorem zero_tests_zero_rates (td : List Trace)
    (rs : List (String × List EvalResult)) (model : String)
    (ar : List (String × List EvalResult)) (trd : List TraceIn)
    (md : MetricData) (d1 d2 d3 d4 agty : String) (rn : Option String)
    (pv : String)
    (h1 : (aggAcc td rs).test_count = 0)
    (h2 : selectResults ar agty = []) :
    ((aggregate_from_traces td rs).get? 0).bind pointsRate = some 0 ∧
    ((aggregate_from_traces td rs).get? 1).bind pointsAvg = some 0 ∧
    ((aggregate_from_traces td rs).get? 2).bind pointsAvg = some 0 ∧
    (compute_leaderboard_row model ar trd md d1 d2 d3 d4 agty rn pv).success_rate = 0 ∧
    (compute_leaderboard_row model ar trd md d1 d2 d3 d4 agty rn pv).avg_steps = 0 ∧
    (compute_leaderboard_row model ar trd md d1 d2 d3 d4 agty rn pv).avg_duration_ms = 0 ∧
    (compute_leaderboard_row model ar trd md d1 d2 d3 d4 agty rn pv).avg_tokens_per_test = 0 ∧
    (compute_leaderboard_row model ar trd md d1 d2 d3 d4 agty rn pv).avg_cost_per_test_usd = 0 := by
  refine ⟨?_, ?_, ?_, ?_, ?_, ?_, ?_, ?_⟩ <;>
    simp [aggregate_from_traces, buildMetrics, h1, pointsRate, pointsAvg,
      compute_leaderboard_row, h2, pyRound_zero, pyTrunc_zero]

/-- Claim C3, witness. The zero-test guarantees evaluated at empty
inputs. -/
theorem zero_tests_zero_rates_witness :
    ((aggregate_from_traces [] []).get? 0).bind pointsRate = some 0 ∧
    ((aggregate_from_traces [] []).get? 1).bind pointsAvg = some 0 ∧
    ((aggregate_from_traces [] []).get? 2).bind pointsAvg = some 0 ∧
    (compute_leaderboard_row "m" [] [] ⟨none, none⟩ "d" "r1" "r2" "r3"
      "both" none "litellm").success_rate = 0 ∧
    (compute_leaderboard_row "m" [] [] ⟨none, none⟩ "d" "r1" "r2" "r3"
      "both" none "litellm").avg_steps = 0 ∧
    (compute_leaderboard_row "m" [] [] ⟨none, none⟩ "d" "r1" "r2" "r3"
      "both" none "litellm").avg_duration_ms = 0 ∧
    (compute_leaderboard_row "m" [] [] ⟨none, none⟩ "d" "r1" "r2" "r3"
      "both" none "litellm").avg_tokens_per_test = 0 ∧
    (compute_leaderboard_row "m" [] [] ⟨none, none⟩ "d" "r1" "r2" "r3"
      "both" none "litellm").avg_cost_per_test_usd = 0 :=
  zero_tests_zero_rates [] [] "m" [] [] ⟨none, none⟩ "d" "r1" "r2" "r3"
    "both" none "litellm" rfl rfl

/-- Claim C4. `aggregate_gpu_metrics` applied to an empty batch list
returns `None` for every one of its seven fields; any bucket with zero
collected data points yields `None` for its avg/max fields; and the
Leaderboard Row Computer copies the GPU aggregates through as
`Option.map (round 2)`, preserving `None` for missing fields and never
defaulting them to `0` (and when `resourceMetrics` is absent every GPU
field of the row is `None`). -/
theorem gpu_none_vs_zero (rms : List ResourceMetric) (md : MetricData)
    (model : String) (ar : List (String × List EvalResult))
    (trd : List TraceIn) (d1 d2 d3 d4 agty : String) (rn : Option String)
    (pv : String) :
    aggregate_gpu_metrics [] = gpuAggNone ∧
    (gpuValues rms "gen_ai.gpu.utilization" = [] →
      (aggregate_gpu_metrics rms).utilization_avg = none ∧
      (aggregate_gpu_metrics rms).utilization_max = none) ∧
    (gpuValues rms "gen_ai.gpu.memory.used" = [] →
      (aggregate_gpu_metrics rms).memory_avg = none ∧
      (aggregate_gpu_metrics rms).memory_max = none) ∧
    (gpuValues rms "gen_ai.gpu.temperature" = [] →
      (aggregate_gpu_metrics rms).temperature_avg = none ∧
      (aggregate_gpu_metrics rms).temperature_max = none) ∧
    (gpuValues rms "gen_ai.gpu.power" = [] →
      (aggregate_gpu_metrics rms).power_avg = none) ∧
    (md.resourceMetrics = some rms →
      (compute_leaderboard_row model ar trd md d1 d2 d3 d4 agty rn pv).gpu_utilization_avg =
        ((aggregate_gpu_metrics rms).utilization_avg).map (fun v => pyRound v 2) ∧
      (compute_leaderboard_row model ar trd md d1 d2 d3 d4 agty rn pv).gpu_utilization_max =
        ((aggregate_gpu_metrics rms).utilization_max).map (fun v => pyRound v 2) ∧
      (compute_leaderboard_row model ar trd md d1 d2 d3 d4 agty rn pv).gpu_memory_avg_mib =
        ((aggregate_gpu_metrics rms).memory_avg).map (fun v => pyRound v 2) ∧
      (compute_leaderboard_row model ar trd md d1 d2 d3 d4 agty rn pv).gpu_memory_max_mib =
        ((aggregate_gpu_metrics rms).memory_max).map (fun v => pyRound v 2) ∧
      (compute_leaderboard_row model ar trd md d1 d2 d3 d4 agty rn pv).gpu_temperature_avg =
        ((aggregate_gpu_metrics rms).temperature_avg).map (fun v => pyRound v 2) ∧
      (compute_leaderboard_row model ar trd md d1 d2 d3 d4 agty rn pv).gpu_temperature_max =
        ((aggregate_gpu_metrics rms).temperature_max).map (fun v => pyRound v 2) ∧
      (compute_leaderboard_row model ar trd md d1 d2 d3 d4 agty rn pv).gpu_power_avg_w =
        ((aggregate_gpu_metrics rms).power_avg).map (fun v => pyRound v 2)) ∧
    (md.resourceMetrics = none →
      (compute_leaderboard_row model ar trd md d1 d2 d3 d4 agty rn pv).gpu_utilization_avg = none ∧
      (compute_leaderboard_row model ar trd md d1 d2 d3 d4 agty rn pv).gpu_utilization_max = none ∧
      (compute_leaderboard_row model ar trd md d1 d2 d3 d4 agty rn pv).gpu_memory_avg_mib = none ∧
      (compute_leaderboard_row model ar trd md d1 d2 d3 d4 agty rn pv).gpu_memory_max_mib = none ∧
      (compute_leaderboard_row model ar trd md d1 d2 d3 d4 agty rn pv).gpu_temperature_avg = none ∧
      (compute_leaderboard_row model ar trd md d1 d2 d3 d4 agty rn pv).gpu_temperature_max = none ∧
      (compute_leaderboard_row model ar trd md d1 d2 d3 d4 agty rn pv).gpu_power_avg_w = none) := by
  refine ⟨rfl, ?_, ?_, ?_, ?_, ?_, ?_⟩
  · intro h
    by_cases hr : rms = [] <;>
      simp [aggregate_gpu_metrics, hr, h, safe_avg, safe_max, gpuAggNone]
  · intro h
    by_cases hr : rms = [] <;>
      simp [aggregate_gpu_metrics, hr, h, safe_avg, safe_max, gpuAggNone]
  · intro h
    by_cases hr : rms = [] <;>
      simp [aggregate_gpu_metrics, hr, h, safe_avg, safe_max, gpuAggNone]
  · intro h
    by_cases hr : rms = [] <;>
      simp [aggregate_gpu_metrics, hr, h, safe_avg, safe_max, gpuAggNone]
  · intro h
    refine ⟨?_, ?_, ?_, ?_, ?_, ?_, ?_⟩ <;> simp [compute_leaderboard_row, h]
  · intro h
    refine ⟨?_, ?_, ?_, ?_, ?_, ?_, ?_⟩ <;> simp [compute_leaderboard_row, h]

/-- Claim C4, witness. The `None`-preservation guarantees evaluated at an
empty batch list and a metric-data record carrying it. -/
theorem gpu_none_vs_zero_witness :
    aggregate_gpu_metrics [] = gpuAggNone ∧
    (aggregate_gpu_metrics []).utilization_avg = none ∧
    (compute_leaderboard_row "m" [] [] ⟨some [], none⟩ "d" "r1" "r2" "r3"
      "both" none "litellm").gpu_utilization_avg =
      ((aggregate_gpu_metrics []).utilization_avg).map (fun v => pyRound v 2) ∧
    (compute_leaderboard_row "m" [] [] ⟨some [], none⟩ "d" "r1" "r2" "r3"
      "both" none "litellm").gpu_power_avg_w =
      ((aggregate_gpu_metrics []).power_avg).map (fun v => pyRound v 2) := by
  have h := gpu_none_vs_zero [] ⟨some [], none⟩ "m" [] [] "d" "r1" "r2" "r3"
    "both" none "litellm"
  exact ⟨h.1, (h.2.1 rfl).1, (h.2.2.2.2.2.1 rfl).1,
    (h.2.2.2.2.2.1 rfl).2.2.2.2.2.2⟩

/-- Claim C7, counterexample. An entry whose value is a dict matching
none of the four tags does NOT appear in the output: the claim that it
is kept with `str(value)` fails — the output mapping is empty. -/
theorem untagged_dict_value_dropped_cex :
    flatten_attributes (.pylist [.dict
      [("key", .str "k"), ("value", .dict [("weird", .int 1)])]]) =
      .ok [] := rfl

/-- The dict-shaped value carries none of
`stringValue`/`intValue`/`doubleValue`/`boolValue`. -/
def noValueTags (vd : List (String × PyVal)) : Bool :=
  (dget vd "stringValue").isNone && (dget vd "intValue").isNone &&
  (dget vd "doubleValue").isNone && (dget vd "boolValue").isNone

/-- The value is not a dict and carries none of the protobuf accessors
`string_value`/`int_value`/`double_value`/`bool_value`. -/
def noAccessorFields : PyVal → Bool
  | .dict _ => false
  | .obj fs =>
    (dget fs "string_value").isNone && (dget fs "int_value").isNone &&
    (dget fs "double_value").isNone && (dget fs "bool_value").isNone
  | _ => true

/-- Claim C7, amended. In the key/value-array case of
`flatten_attributes`, an entry whose value is a *dict* matching none of
the four tags is silently omitted from the output; only a *non-dict*
value with none of the four typed accessor attributes falls back to
`str(value)` and is kept. -/
theorem untagged_entry_behavior (k : String) (vd : List (String × PyVal))
    (v : PyVal) (h1 : noValueTags vd = true)
    (h2 : noAccessorFields v = true) :
    flatten_attributes (.pylist [.dict
      [("key", .str k), ("value", .dict vd)]]) = .ok [] ∧
    flatten_attributes (.pylist [.dict
      [("key", .str k), ("value", v)]]) = .ok [(k, .str (pyStr v))] := by
  simp only [noValueTags, Bool.and_eq_true, Option.isNone_iff_eq_none] at h1
  obtain ⟨⟨⟨hs, hi⟩, hd⟩, hb⟩ := h1
  simp only [dget] at hs hi hd hb
  constructor
  · simp [flatten_attributes, flattenList, flattenEntry, dget, alookup,
      hs, hi, hd, hb]
  · cases v with
    | dict es => simp [noAccessorFields] at h2
    | obj fs =>
      simp only [noAccessorFields, Bool.and_eq_true,
        Option.isNone_iff_eq_none] at h2
      obtain ⟨⟨⟨os, oi⟩, od⟩, ob⟩ := h2
      simp only [dget] at os oi od ob
      simp [flatten_attributes, flattenList, flattenEntry, dget, alookup,
        dset, os, oi, od, ob]
    | str s => simp [flatten_attributes, flattenList, flattenEntry, dget,
        alookup, dset]
    | int n => simp [flatten_attributes, flattenList, flattenEntry, dget,
        alookup, dset]
    | float q => simp [flatten_attributes, flattenList, flattenEntry, dget,
        alookup, dset]
    | bool b => simp [flatten_attributes, flattenList, flattenEntry, dget,
        alookup, dset]
    | pylist xs => simp [flatten_attributes, flattenList, flattenEntry, dget,
        alookup, dset]

/-- Claim C7, witness. Evaluated at a concrete untagged dict value
(dropped) and a concrete plain integer value (kept, stringified). -/
theorem untagged_entry_behavior_witness :
    flatten_attributes (.pylist [.dict
      [("key", .str "k"), ("value", .dict [("weird", .int 1)])]]) = .ok [] ∧
    flatten_attributes (.pylist [.dict
      [("key", .str "k"), ("value", .int 7)]]) =
      .ok [("k", .str (pyStr (.int 7)))] := by
  have h := untagged_entry_behavior "k" [("weird", .int 1)] (.int 7) rfl rfl
  exact ⟨h.1, h.2⟩

/-! ## Supporting lemmas for `extract_traces` (C1, C5) -/

/-- Both fallible parses of the `extract_traces` span step succeed:
the token-count attribute (when present) parses as an int and the cost
attribute (when present) parses as a float. -/
def spanParsesOk (s : Span) : Bool :=
  (match alookup "llm.token_count.total" s.attributes with
   | some v => (pyInt v).isSome
   | none => true) &&
  (match alookup "gen_ai.usage.cost.total" s.attributes with
   | some v => (pyFloat v).isSome
   | none => true)

theorem addSpan_isOk (t : Trace) (s : Span) :
    exOk (addSpanToTrace t s) = spanParsesOk s := by
  unfold addSpanToTrace spanParsesOk
  cases h1 : alookup "llm.token_count.total" s.attributes with
  | none =>
    cases h2 : alookup "gen_ai.usage.cost.total" s.attributes with
    | none => simp [exOk]
    | some cv => cases hp : pyFloat cv <;> simp [exOk, hp]
  | some v =>
    cases hq : pyInt v with
    | none => simp [exOk, hq]
    | some n =>
      cases h2 : alookup "gen_ai.usage.cost.total" s.attributes with
      | none => simp [exOk, hq]
      | some cv => cases hp : pyFloat cv <;> simp [exOk, hq, hp]

theorem addSpan_spans (t : Trace) (s : Span) (t' : Trace)
    (h : addSpanToTrace t s = .ok t') : t'.spans = t.spans ++ [s] := by
  simp only [addSpanToTrace] at h
  repeat' split at h
  all_goals
    first
    | exact Except.noConfusion h
    | (injection h with h2; subst h2; rfl)

theorem upsert_isOk (l : List (Option String × Trace)) (tid : Option String)
    (run_id : String) (s : Span) :
    exOk (upsertTrace l tid run_id s) = spanParsesOk s := by
  induction l with
  | nil =>
    simp only [upsertTrace]
    rw [← addSpan_isOk (newTrace tid run_id) s]
    cases addSpanToTrace (newTrace tid run_id) s <;> simp [exOk]
  | cons hd tl ih =>
    obtain ⟨k, t⟩ := hd
    simp only [upsertTrace]
    by_cases hk : k = tid
    · rw [if_pos hk, ← addSpan_isOk t s]
      cases addSpanToTrace t s <;> simp [exOk]
    · rw [if_neg hk, ← ih]
      cases upsertTrace tl tid run_id s <;> simp [exOk]

theorem upsert_ok_mem (l : List (Option String × Trace)) (tid : Option String)
    (run_id : String) (s : Span) (l' : List (Option String × Trace))
    (h : upsertTrace l tid run_id s = .ok l') :
    (∃ p ∈ l', s ∈ p.2.spans) ∧
    (∀ p ∈ l, ∃ p' ∈ l', ∀ x ∈ p.2.spans, x ∈ p'.2.spans) := by
  induction l generalizing l' with
  | nil =>
    simp only [upsertTrace] at h
    cases ha : addSpanToTrace (newTrace tid run_id) s with
    | error e => rw [ha] at h; exact Except.noConfusion h
    | ok t =>
      rw [ha] at h
      injection h with h2
      subst h2
      refine ⟨⟨(tid, t), by simp, ?_⟩, by simp⟩
      have hsp := addSpan_spans (newTrace tid run_id) s t ha
      simp [hsp, newTrace]
  | cons hd tl ih =>
    obtain ⟨k, t⟩ := hd
    simp only [upsertTrace] at h
    by_cases hk : k = tid
    · rw [if_pos hk] at h
      cases ha : addSpanToTrace t s with
      | error e => rw [ha] at h; exact Except.noConfusion h
      | ok t' =>
        rw [ha] at h
        injection h with h2
        subst h2
        have hsp := addSpan_spans t s t' ha
        refine ⟨⟨(k, t'), by simp, by simp [hsp]⟩, ?_⟩
        intro p hp
        rcases List.mem_cons.mp hp with hph | hpt
        · subst hph
          exact ⟨(k, t'), by simp, fun x hx => by simp [hsp, hx]⟩
        · exact ⟨p, by simp [hpt], fun x hx => hx⟩
    · rw [if_neg hk] at h
      cases hr : upsertTrace tl tid run_id s with
      | error e => rw [hr] at h; exact Except.noConfusion h
      | ok rest' =>
        rw [hr] at h
        injection h with h2
        subst h2
        obtain ⟨⟨p1, hp1, hsp1⟩, hpres⟩ := ih rest' hr
        refine ⟨⟨p1, by simp [hp1], hsp1⟩, ?_⟩
        intro p hp
        rcases List.mem_cons.mp hp with hph | hpt
        · subst hph
          exact ⟨(k, t), by simp, fun x hx => hx⟩
        · obtain ⟨p', hp', hxx⟩ := hpres p hpt
          exact ⟨p', by simp [hp'], hxx⟩

theorem extractLoop_isOk (run_id : String) (spans : List Span) :
    ∀ acc, exOk (extractLoop acc run_id spans) = spans.all spanParsesOk := by
  induction spans with
  | nil => intro acc; simp [extractLoop, exOk]
  | cons s rest ih =>
    intro acc
    simp only [extractLoop, List.all_cons]
    have hiu := upsert_isOk acc s.trace_id run_id s
    cases hu : upsertTrace acc s.trace_id run_id s with
    | error e =>
      rw [hu] at hiu
      simp [exOk, ← hiu]
    | ok acc' =>
      rw [hu] at hiu
      rw [ih acc', ← hiu]
      simp [exOk]

theorem extractLoop_ok_mem (run_id : String) (spans : List Span) :
    ∀ acc m, extractLoop acc run_id spans = .ok m →
      ((∀ p ∈ acc, ∃ p' ∈ m, ∀ x ∈ p.2.spans, x ∈ p'.2.spans) ∧
       (∀ s ∈ spans, ∃ p ∈ m, s ∈ p.2.spans)) := by
  induction spans with
  | nil =>
    intro acc m h
    simp only [extractLoop] at h
    injection h with h2
    subst h2
    exact ⟨fun p hp => ⟨p, hp, fun x hx => hx⟩, by simp⟩
  | cons s rest ih =>
    intro acc m h
    simp only [extractLoop] at h
    cases hu : upsertTrace acc s.trace_id run_id s with
    | error e => rw [hu] at h; exact Except.noConfusion h
    | ok acc' =>
      rw [hu] at h
      obtain ⟨⟨p1, hp1, hs1⟩, hpres1⟩ :=
        upsert_ok_mem acc s.trace_id run_id s acc' hu
      obtain ⟨hpres2, hmem2⟩ := ih acc' m h
      refine ⟨?_, ?_⟩
      · intro p hp
        obtain ⟨q, hq, hxq⟩ := hpres1 p hp
        obtain ⟨q', hq', hxq'⟩ := hpres2 q hq
        exact ⟨q', hq', fun x hx => hxq' x (hxq x hx)⟩
      · intro s' hs'
        rcases List.mem_cons.mp hs' with h1 | h1
        · subst h1
          obtain ⟨q', hq', hxq'⟩ := hpres2 p1 hp1
          exact ⟨q', hq', hxq' s' hs1⟩
        · exact hmem2 s' h1

/-- Claim C1, counterexample. A span whose token-count attribute is the
non-numeric string `"abc"` (respectively whose cost attribute is
`"oops"`) makes `extract_traces` raise a `ValueError` — the contribution
is not `0` and the exception propagates. -/
theorem token_parse_failure_raises_cex :
    exOk (extract_traces
      [(⟨some "0xabc", [("llm.token_count.total", "abc")], none⟩ : Span)]
      "r") = false ∧
    exOk (extract_traces
      [(⟨some "0xabc", [("gen_ai.usage.cost.total", "oops")], none⟩ : Span)]
      "r") = false := by
  constructor <;> decide

/-- Claim C1, amended. `extract_traces` succeeds exactly when every
span's token-count attribute (when present) parses as an integer and
every span's cost attribute (when present) parses as a float; a parse
failure is not replaced by `0` but propagates the `ValueError` out of
the aggregation. -/
theorem extract_traces_ok_iff_parses (spans : List Span) (run_id : String) :
    exOk (extract_traces spans run_id) = spans.all spanParsesOk := by
  unfold extract_traces
  have hl2 := extractLoop_isOk run_id spans []
  cases hl : extractLoop [] run_id spans <;>
    rw [hl] at hl2 <;> simpa [exOk] using hl2

/-- Concrete span with no `trace_id`, used by the C5 counterexample and
witness. -/
def noIdSpan : Span := { trace_id := none, attributes := [], duration_ms := none }

/-- The trace `extract_traces` builds for `noIdSpan` under the `None`
dict key. -/
def noIdTrace : Trace :=
  { trace_id := none, run_id := "r", spans := [noIdSpan], total_tokens := 0,
    total_duration_ms := 0, total_cost_usd := 0 }

/-- Claim C5, counterexample. A span with no `trace_id` is not skipped:
it is grouped under the `None` key and appears in an output trace (whose
`trace_id` is `None`), and no anomaly counter exists anywhere in the
result. -/
theorem missing_trace_id_not_skipped_cex :
    extract_traces [noIdSpan] "r" = .ok [noIdTrace] ∧
    noIdSpan ∈ noIdTrace.spans := by
  exact ⟨rfl, by simp [noIdTrace]⟩

/-- Claim C5, amended. `extract_traces` never drops a span: whenever the
aggregation succeeds, every input span — including one with no
`trace_id`, which is grouped under the `None` key — appears in some
output trace; a missing `trace_id` causes no crash and no skip (and no
anomaly count exists). -/
theorem extract_traces_no_span_dropped (spans : List Span) (run_id : String)
    (ts : List Trace) (h : extract_traces spans run_id = .ok ts) :
    ∀ s ∈ spans, ∃ t ∈ ts, s ∈ t.spans := by
  unfold extract_traces at h
  cases hl : extractLoop [] run_id spans with
  | error e => rw [hl] at h; exact Except.noConfusion h
  | ok m =>
    rw [hl] at h
    injection h with h2
    subst h2
    intro s hs
    obtain ⟨p, hp, hsp⟩ := (extractLoop_ok_mem run_id spans [] m hl).2 s hs
    exact ⟨p.2, List.mem_map_of_mem Prod.snd hp, hsp⟩

/-- Claim C5, witness. The no-drop theorem applied to the concrete
`trace_id`-less span: it appears in the output trace list. -/
theorem extract_traces_no_span_dropped_witness :
    ∃ t ∈ [noIdTrace], noIdSpan ∈ t.spans :=
  extract_traces_no_span_dropped [noIdSpan] "r" [noIdTrace] rfl noIdSpan
    (by simp)

end SmolTrace
